import Mathlib

/-!
Verification of the segment-list builder and fetch loop of a DASH MPD
downloader (`src/fetch.rs`) against its natural-language specification.

Rust strings are embedded as `List Char` (for the URL-template resolver,
whose code works at character granularity) or as `List Nat` of UTF-8 bytes
(for `adaptation_lang_distance`, whose byte-slicing behaviour is at issue).
Rust panics and non-returning executions are modelled by `Option`/`Except`;
`f64` arithmetic on manifest durations is modelled exactly over `ℚ`
(the inputs appearing in the claims are all exactly representable, and no
claim depends on floating-point rounding).
-/

namespace DashMpdRs

/-- Characters of a Rust `String`/`&str`. -/
abbrev Str := List Char

/-- Model of Rust `str::contains` for a literal pattern: some contiguous
occurrence of `pat` starts at some position of `s`. -/
def containsSub (s pat : Str) : Bool :=
  match s with
  | [] => pat.isEmpty
  | _ :: rest => pat.isPrefixOf s || containsSub rest pat

/-- Fuel-driven worker for `replaceAll` (structural recursion on fuel so that
concrete instances evaluate inside the kernel). -/
def replaceAllGo (pat rep : Str) : Nat → Str → Str
  | 0, s => s
  | _, [] => []
  | fuel + 1, c :: rest =>
    if pat.isPrefixOf (c :: rest) then
      rep ++ replaceAllGo pat rep fuel (List.drop (pat.length - 1) rest)
    else
      c :: replaceAllGo pat rep fuel rest

/-- Model of Rust `str::replace`: replace every non-overlapping occurrence of
`pat` in `s` by `rep`, scanning left to right.  (The source only calls this
with the non-empty pattern `"$<var>$"`.) -/
def replaceAll (pat rep s : Str) : Str :=
  replaceAllGo pat rep s.length s

/-- The template variables recognized by `resolve_url_template`
(`fetch.rs:433`: `["RepresentationID", "Number", "Time", "Bandwidth"]`). -/
inductive TVar
  | RepresentationID
  | Number
  | Time
  | Bandwidth
deriving DecidableEq

/-- The name of a recognized template variable, as the character list of the
corresponding Rust string literal. -/
def tvarName : TVar → Str
  | .RepresentationID =>
    ['R', 'e', 'p', 'r', 'e', 's', 'e', 'n', 't', 'a', 't', 'i', 'o', 'n',
     'I', 'D']
  | .Number => ['N', 'u', 'm', 'b', 'e', 'r']
  | .Time => ['T', 'i', 'm', 'e']
  | .Bandwidth => ['B', 'a', 'n', 'd', 'w', 'i', 'd', 't', 'h']

/-- The fixed iteration order of the `for k in [...]` loop in
`resolve_url_template`. -/
def recognizedVars : List TVar :=
  [.RepresentationID, .Number, .Time, .Bandwidth]

/-- The variable map (`HashMap<&str, String>` in the source; every key the
source ever inserts is one of the four recognized names, so the embedding
keys it by `TVar`). -/
abbrev Params := List (TVar × Str)

/-- `HashMap::get` on the variable map. -/
def lookupVar : Params → TVar → Option Str
  | [], _ => none
  | (k, v) :: rest, q => if k = q then some v else lookupVar rest q

/-- If `s` begins with the width pattern `$<k>%0<digit>d$`, return the digit
and the remainder of `s` after the pattern.  This is the anchored form of the
source regex `\$<k>%0([\d])d\$` (`fetch.rs:442`), whose width group matches a
single digit character.  (`\d` is modelled as an ASCII digit; a non-ASCII
Unicode digit would make the subsequent `parse::<usize>().unwrap()` panic,
a case no claim exercises.) -/
def matchWidthAt (k : Str) (s : Str) : Option (Char × Str) :=
  if ('$' :: k ++ ['%', '0']).isPrefixOf s then
    match List.drop (k.length + 3) s with
    | c :: 'd' :: '$' :: tail => if c.isDigit then some (c, tail) else none
    | _ => none
  else none

/-- Leftmost match of the width pattern `$<k>%0<digit>d$` in `s`, as
`(prefix before the match, the width digit, suffix after the match)`.
Models `Regex::captures`/`Regex::find` returning the first match. -/
def findWidth (k : Str) : Str → Option (Str × Char × Str)
  | [] => none
  | c :: rest =>
    match matchWidthAt k (c :: rest) with
    | some (d, tail) => some ([], d, tail)
    | none =>
      match findWidth k rest with
      | some (pre, d, tail) => some (c :: pre, d, tail)
      | none => none

/-- Model of `format!("{value:0>width$}")`: left-pad `v` with `'0'` to width
`w` (no truncation when `v` is already at least `w` long). -/
def padZero (v : Str) (w : Nat) : Str :=
  List.replicate (w - v.length) '0' ++ v

/-- The simple-substitution pass of one loop iteration of
`resolve_url_template` (`fetch.rs:434-440`): if `result` contains `$<k>$`
and `k` is bound, replace every occurrence by the bound value. -/
def resolveVarSimple (params : Params) (k : TVar) (result : Str) : Str :=
  if containsSub result ('$' :: tvarName k ++ ['$']) then
    match lookupVar params k with
    | some v => replaceAll ('$' :: tvarName k ++ ['$']) v result
    | none => result
  else result

/-- The width-substitution pass of one loop iteration of
`resolve_url_template` (`fetch.rs:441-451`): if the regex
`\$<k>%0([\d])d\$` has a first match in `r1` and `k` is bound, replace that
first match by the value left-zero-padded to the captured width. -/
def resolveVarWidth (params : Params) (k : TVar) (r1 : Str) : Str :=
  match findWidth (tvarName k) r1 with
  | some (pre, c, suf) =>
    match lookupVar params k with
    | some v => pre ++ padZero v (c.toNat - '0'.toNat) ++ suf
    | none => r1
  | none => r1

/-- One iteration of the `for k in [...]` loop of `resolve_url_template`:
the simple pass followed by the width pass. -/
def resolveVar (params : Params) (k : TVar) (result : Str) : Str :=
  resolveVarWidth params k (resolveVarSimple params k result)

/-- `resolve_url_template` (`fetch.rs:431-454`): iterate the two substitution
passes over the four recognized variables in their fixed order. -/
def resolve_url_template (template : Str) (params : Params) : Str :=
  recognizedVars.foldl (fun acc k => resolveVar params k acc) template

-- The unit tests of the source (`fetch.rs:1844-1856`), checked against the
-- embedding.
example :
    resolve_url_template "AA$Time$BB".data [(.Time, "ZZZ".data)]
      = "AAZZZBB".data := by decide

example :
    resolve_url_template "AA$Number%06d$BB".data [(.Number, "42".data)]
      = "AA000042BB".data := by decide

example :
    resolve_url_template "AA/$RepresentationID$/segment-$Number%05d$.mp4".data
      [(.RepresentationID, "640x480".data), (.Number, "42".data),
       (.Time, "ZZZ".data)]
      = "AA/640x480/segment-00042.mp4".data := by decide

/-- A template consisting of exactly one width-form placeholder
`$<k>%0<w>d$` with a single-digit width `w ≤ 9`. -/
def widthTemplate (k : TVar) (w : Nat) : Str :=
  '$' :: tvarName k ++ ['%', '0', Char.ofNat (48 + w), 'd', '$']

theorem resolveVarSimple_unbound (params : Params) (k : TVar) (s : Str)
    (h : lookupVar params k = none) : resolveVarSimple params k s = s := by
  simp [resolveVarSimple, h]

theorem resolveVarWidth_unbound (params : Params) (k : TVar) (s : Str)
    (h : lookupVar params k = none) : resolveVarWidth params k s = s := by
  unfold resolveVarWidth
  cases hf : findWidth (tvarName k) s with
  | none => rfl
  | some x =>
    obtain ⟨pre, c, suf⟩ := x
    simp [h]

theorem resolveVar_unbound (params : Params) (k : TVar) (s : Str)
    (h : lookupVar params k = none) : resolveVar params k s = s := by
  rw [resolveVar, resolveVarSimple_unbound params k s h,
    resolveVarWidth_unbound params k s h]

/-- One recognized variable `k` "matches" in `s`: the corresponding loop
iteration of `resolve_url_template` would perform a substitution (a simple
`$k$` occurrence, or a first width-form match, with `k` bound). -/
def hasVarMatch (params : Params) (s : Str) (k : TVar) : Bool :=
  (containsSub s ('$' :: tvarName k ++ ['$']) && (lookupVar params k).isSome)
  || ((findWidth (tvarName k) s).isSome && (lookupVar params k).isSome)

/-- No recognized bound variable matches anywhere in `s`. -/
def anyVarMatch (params : Params) (s : Str) : Bool :=
  hasVarMatch params s .RepresentationID || hasVarMatch params s .Number
  || hasVarMatch params s .Time || hasVarMatch params s .Bandwidth

theorem resolveVar_noMatch (params : Params) (k : TVar) (s : Str)
    (h : hasVarMatch params s k = false) : resolveVar params k s = s := by
  cases hl : lookupVar params k with
  | none => exact resolveVar_unbound params k s hl
  | some v =>
    rw [hasVarMatch, hl] at h
    simp only [Option.isSome_some, Bool.and_true, Bool.or_eq_false_iff] at h
    obtain ⟨h1, h2⟩ := h
    have hw : findWidth (tvarName k) s = none := by
      cases hf : findWidth (tvarName k) s with
      | none => rfl
      | some x => rw [hf] at h2; simp at h2
    rw [resolveVar, resolveVarSimple, h1]
    simp only [Bool.false_eq_true, if_false]
    rw [resolveVarWidth, hw]

/-- When no bound recognized variable matches in `s`, the resolver leaves `s`
unchanged. -/
theorem resolve_noMatch_fixed (params : Params) (s : Str)
    (h : anyVarMatch params s = false) : resolve_url_template s params = s := by
  rw [anyVarMatch] at h
  simp only [Bool.or_eq_false_iff] at h
  obtain ⟨⟨⟨h1, h2⟩, h3⟩, h4⟩ := h
  show resolveVar params .Bandwidth (resolveVar params .Time (resolveVar params
    .Number (resolveVar params .RepresentationID s))) = s
  rw [resolveVar_noMatch params _ s h1, resolveVar_noMatch params _ s h2,
    resolveVar_noMatch params _ s h3, resolveVar_noMatch params _ s h4]

/-- **C8, counterexample.** The claim asserts
`resolve(resolve(T,V),V) = resolve(T,V)` for EVERY template `T` and map `V`
binding all variables referenced in `T`.  It fails: the width pass replaces
only the FIRST `$Number%0<w>d$` occurrence, so a second occurrence survives
one resolution and is substituted by the next.  Here `T` contains two
width-form `Number` placeholders and `V` binds `Number` (the only referenced
variable): one resolution yields `42$Number%01d$`, a second yields `4242`. -/
theorem c8_counterexample :
    resolve_url_template
        (resolve_url_template "$Number%01d$$Number%01d$".data
          [(.Number, "42".data)])
        [(.Number, "42".data)]
      ≠ resolve_url_template "$Number%01d$$Number%01d$".data
          [(.Number, "42".data)] := by
  decide

/-- **C8, amended.** The resolver is idempotent whenever no bound recognized
placeholder (simple `$V$` or width form `$V%0<digit>d$`) remains in the
result of the first resolution: in that case the second resolution leaves the
string unchanged.  (The unconditional form fails, `c8_counterexample`.) -/
theorem c8_resolve_idempotent_of_no_match (T : Str) (P : Params)
    (h : anyVarMatch P (resolve_url_template T P) = false) :
    resolve_url_template (resolve_url_template T P) P
      = resolve_url_template T P :=
  resolve_noMatch_fixed P (resolve_url_template T P) h

/-- Witness for `c8_resolve_idempotent_of_no_match` at a concrete input. -/
theorem c8_witness :
    resolve_url_template
        (resolve_url_template "AA$Time$BB".data [(.Time, "ZZZ".data)])
        [(.Time, "ZZZ".data)]
      = resolve_url_template "AA$Time$BB".data [(.Time, "ZZZ".data)] :=
  c8_resolve_idempotent_of_no_match "AA$Time$BB".data [(.Time, "ZZZ".data)]
    (by decide)

theorem resolve_eq_steps (t : Str) (p : Params) :
    resolve_url_template t p =
      resolveVar p .Bandwidth (resolveVar p .Time (resolveVar p .Number
        (resolveVar p .RepresentationID t))) := rfl

theorem resolveVar_width_eval (params : Params) (k : TVar) (s : Str)
    (pre suf v : Str) (c : Char)
    (hcont : containsSub s ('$' :: tvarName k ++ ['$']) = false)
    (hfind : findWidth (tvarName k) s = some (pre, c, suf))
    (hlook : lookupVar params k = some v) :
    resolveVar params k s = pre ++ padZero v (c.toNat - '0'.toNat) ++ suf := by
  rw [resolveVar, resolveVarSimple, hcont]
  simp only [Bool.false_eq_true, if_false]
  rw [resolveVarWidth, hfind, hlook]

theorem widthRepCase (w : Nat) (hw : w ≤ 9) (v : Str) :
    resolve_url_template (widthTemplate .RepresentationID w) [(TVar.RepresentationID, v)]
      = padZero v w := by
  interval_cases w
  · rw [resolve_eq_steps]
    rw [resolveVar_width_eval [(TVar.RepresentationID, v)] TVar.RepresentationID
      (widthTemplate .RepresentationID 0) [] [] v '0' (by decide) (by decide) rfl]
    rw [resolveVar_unbound [(TVar.RepresentationID, v)] TVar.Number _ rfl]
    rw [resolveVar_unbound [(TVar.RepresentationID, v)] TVar.Time _ rfl]
    rw [resolveVar_unbound [(TVar.RepresentationID, v)] TVar.Bandwidth _ rfl]
    exact List.append_nil _
  · rw [resolve_eq_steps]
    rw [resolveVar_width_eval [(TVar.RepresentationID, v)] TVar.RepresentationID
      (widthTemplate .RepresentationID 1) [] [] v '1' (by decide) (by decide) rfl]
    rw [resolveVar_unbound [(TVar.RepresentationID, v)] TVar.Number _ rfl]
    rw [resolveVar_unbound [(TVar.RepresentationID, v)] TVar.Time _ rfl]
    rw [resolveVar_unbound [(TVar.RepresentationID, v)] TVar.Bandwidth _ rfl]
    exact List.append_nil _
  · rw [resolve_eq_steps]
    rw [resolveVar_width_eval [(TVar.RepresentationID, v)] TVar.RepresentationID
      (widthTemplate .RepresentationID 2) [] [] v '2' (by decide) (by decide) rfl]
    rw [resolveVar_unbound [(TVar.RepresentationID, v)] TVar.Number _ rfl]
    rw [resolveVar_unbound [(TVar.RepresentationID, v)] TVar.Time _ rfl]
    rw [resolveVar_unbound [(TVar.RepresentationID, v)] TVar.Bandwidth _ rfl]
    exact List.append_nil _
  · rw [resolve_eq_steps]
    rw [resolveVar_width_eval [(TVar.RepresentationID, v)] TVar.RepresentationID
      (widthTemplate .RepresentationID 3) [] [] v '3' (by decide) (by decide) rfl]
    rw [resolveVar_unbound [(TVar.RepresentationID, v)] TVar.Number _ rfl]
    rw [resolveVar_unbound [(TVar.RepresentationID, v)] TVar.Time _ rfl]
    rw [resolveVar_unbound [(TVar.RepresentationID, v)] TVar.Bandwidth _ rfl]
    exact List.append_nil _
  · rw [resolve_eq_steps]
    rw [resolveVar_width_eval [(TVar.RepresentationID, v)] TVar.RepresentationID
      (widthTemplate .RepresentationID 4) [] [] v '4' (by decide) (by decide) rfl]
    rw [resolveVar_unbound [(TVar.RepresentationID, v)] TVar.Number _ rfl]
    rw [resolveVar_unbound [(TVar.RepresentationID, v)] TVar.Time _ rfl]
    rw [resolveVar_unbound [(TVar.RepresentationID, v)] TVar.Bandwidth _ rfl]
    exact List.append_nil _
  · rw [resolve_eq_steps]
    rw [resolveVar_width_eval [(TVar.RepresentationID, v)] TVar.RepresentationID
      (widthTemplate .RepresentationID 5) [] [] v '5' (by decide) (by decide) rfl]
    rw [resolveVar_unbound [(TVar.RepresentationID, v)] TVar.Number _ rfl]
    rw [resolveVar_unbound [(TVar.RepresentationID, v)] TVar.Time _ rfl]
    rw [resolveVar_unbound [(TVar.RepresentationID, v)] TVar.Bandwidth _ rfl]
    exact List.append_nil _
  · rw [resolve_eq_steps]
    rw [resolveVar_width_eval [(TVar.RepresentationID, v)] TVar.RepresentationID
      (widthTemplate .RepresentationID 6) [] [] v '6' (by decide) (by decide) rfl]
    rw [resolveVar_unbound [(TVar.RepresentationID, v)] TVar.Number _ rfl]
    rw [resolveVar_unbound [(TVar.RepresentationID, v)] TVar.Time _ rfl]
    rw [resolveVar_unbound [(TVar.RepresentationID, v)] TVar.Bandwidth _ rfl]
    exact List.append_nil _
  · rw [resolve_eq_steps]
    rw [resolveVar_width_eval [(TVar.RepresentationID, v)] TVar.RepresentationID
      (widthTemplate .RepresentationID 7) [] [] v '7' (by decide) (by decide) rfl]
    rw [resolveVar_unbound [(TVar.RepresentationID, v)] TVar.Number _ rfl]
    rw [resolveVar_unbound [(TVar.RepresentationID, v)] TVar.Time _ rfl]
    rw [resolveVar_unbound [(TVar.RepresentationID, v)] TVar.Bandwidth _ rfl]
    exact List.append_nil _
  · rw [resolve_eq_steps]
    rw [resolveVar_width_eval [(TVar.RepresentationID, v)] TVar.RepresentationID
      (widthTemplate .RepresentationID 8) [] [] v '8' (by decide) (by decide) rfl]
    rw [resolveVar_unbound [(TVar.RepresentationID, v)] TVar.Number _ rfl]
    rw [resolveVar_unbound [(TVar.RepresentationID, v)] TVar.Time _ rfl]
    rw [resolveVar_unbound [(TVar.RepresentationID, v)] TVar.Bandwidth _ rfl]
    exact List.append_nil _
  · rw [resolve_eq_steps]
    rw [resolveVar_width_eval [(TVar.RepresentationID, v)] TVar.RepresentationID
      (widthTemplate .RepresentationID 9) [] [] v '9' (by decide) (by decide) rfl]
    rw [resolveVar_unbound [(TVar.RepresentationID, v)] TVar.Number _ rfl]
    rw [resolveVar_unbound [(TVar.RepresentationID, v)] TVar.Time _ rfl]
    rw [resolveVar_unbound [(TVar.RepresentationID, v)] TVar.Bandwidth _ rfl]
    exact List.append_nil _

theorem widthNumberCase (w : Nat) (hw : w ≤ 9) (v : Str) :
    resolve_url_template (widthTemplate .Number w) [(TVar.Number, v)]
      = padZero v w := by
  interval_cases w
  · rw [resolve_eq_steps]
    rw [resolveVar_unbound [(TVar.Number, v)] TVar.RepresentationID
      (widthTemplate .Number 0) rfl]
    rw [resolveVar_width_eval [(TVar.Number, v)] TVar.Number
      (widthTemplate .Number 0) [] [] v '0' (by decide) (by decide) rfl]
    rw [resolveVar_unbound [(TVar.Number, v)] TVar.Time _ rfl]
    rw [resolveVar_unbound [(TVar.Number, v)] TVar.Bandwidth _ rfl]
    exact List.append_nil _
  · rw [resolve_eq_steps]
    rw [resolveVar_unbound [(TVar.Number, v)] TVar.RepresentationID
      (widthTemplate .Number 1) rfl]
    rw [resolveVar_width_eval [(TVar.Number, v)] TVar.Number
      (widthTemplate .Number 1) [] [] v '1' (by decide) (by decide) rfl]
    rw [resolveVar_unbound [(TVar.Number, v)] TVar.Time _ rfl]
    rw [resolveVar_unbound [(TVar.Number, v)] TVar.Bandwidth _ rfl]
    exact List.append_nil _
  · rw [resolve_eq_steps]
    rw [resolveVar_unbound [(TVar.Number, v)] TVar.RepresentationID
      (widthTemplate .Number 2) rfl]
    rw [resolveVar_width_eval [(TVar.Number, v)] TVar.Number
      (widthTemplate .Number 2) [] [] v '2' (by decide) (by decide) rfl]
    rw [resolveVar_unbound [(TVar.Number, v)] TVar.Time _ rfl]
    rw [resolveVar_unbound [(TVar.Number, v)] TVar.Bandwidth _ rfl]
    exact List.append_nil _
  · rw [resolve_eq_steps]
    rw [resolveVar_unbound [(TVar.Number, v)] TVar.RepresentationID
      (widthTemplate .Number 3) rfl]
    rw [resolveVar_width_eval [(TVar.Number, v)] TVar.Number
      (widthTemplate .Number 3) [] [] v '3' (by decide) (by decide) rfl]
    rw [resolveVar_unbound [(TVar.Number, v)] TVar.Time _ rfl]
    rw [resolveVar_unbound [(TVar.Number, v)] TVar.Bandwidth _ rfl]
    exact List.append_nil _
  · rw [resolve_eq_steps]
    rw [resolveVar_unbound [(TVar.Number, v)] TVar.RepresentationID
      (widthTemplate .Number 4) rfl]
    rw [resolveVar_width_eval [(TVar.Number, v)] TVar.Number
      (widthTemplate .Number 4) [] [] v '4' (by decide) (by decide) rfl]
    rw [resolveVar_unbound [(TVar.Number, v)] TVar.Time _ rfl]
    rw [resolveVar_unbound [(TVar.Number, v)] TVar.Bandwidth _ rfl]
    exact List.append_nil _
  · rw [resolve_eq_steps]
    rw [resolveVar_unbound [(TVar.Number, v)] TVar.RepresentationID
      (widthTemplate .Number 5) rfl]
    rw [resolveVar_width_eval [(TVar.Number, v)] TVar.Number
      (widthTemplate .Number 5) [] [] v '5' (by decide) (by decide) rfl]
    rw [resolveVar_unbound [(TVar.Number, v)] TVar.Time _ rfl]
    rw [resolveVar_unbound [(TVar.Number, v)] TVar.Bandwidth _ rfl]
    exact List.append_nil _
  · rw [resolve_eq_steps]
    rw [resolveVar_unbound [(TVar.Number, v)] TVar.RepresentationID
      (widthTemplate .Number 6) rfl]
    rw [resolveVar_width_eval [(TVar.Number, v)] TVar.Number
      (widthTemplate .Number 6) [] [] v '6' (by decide) (by decide) rfl]
    rw [resolveVar_unbound [(TVar.Number, v)] TVar.Time _ rfl]
    rw [resolveVar_unbound [(TVar.Number, v)] TVar.Bandwidth _ rfl]
    exact List.append_nil _
  · rw [resolve_eq_steps]
    rw [resolveVar_unbound [(TVar.Number, v)] TVar.RepresentationID
      (widthTemplate .Number 7) rfl]
    rw [resolveVar_width_eval [(TVar.Number, v)] TVar.Number
      (widthTemplate .Number 7) [] [] v '7' (by decide) (by decide) rfl]
    rw [resolveVar_unbound [(TVar.Number, v)] TVar.Time _ rfl]
    rw [resolveVar_unbound [(TVar.Number, v)] TVar.Bandwidth _ rfl]
    exact List.append_nil _
  · rw [resolve_eq_steps]
    rw [resolveVar_unbound [(TVar.Number, v)] TVar.RepresentationID
      (widthTemplate .Number 8) rfl]
    rw [resolveVar_width_eval [(TVar.Number, v)] TVar.Number
      (widthTemplate .Number 8) [] [] v '8' (by decide) (by decide) rfl]
    rw [resolveVar_unbound [(TVar.Number, v)] TVar.Time _ rfl]
    rw [resolveVar_unbound [(TVar.Number, v)] TVar.Bandwidth _ rfl]
    exact List.append_nil _
  · rw [resolve_eq_steps]
    rw [resolveVar_unbound [(TVar.Number, v)] TVar.RepresentationID
      (widthTemplate .Number 9) rfl]
    rw [resolveVar_width_eval [(TVar.Number, v)] TVar.Number
      (widthTemplate .Number 9) [] [] v '9' (by decide) (by decide) rfl]
    rw [resolveVar_unbound [(TVar.Number, v)] TVar.Time _ rfl]
    rw [resolveVar_unbound [(TVar.Number, v)] TVar.Bandwidth _ rfl]
    exact List.append_nil _

theorem widthTimeCase (w : Nat) (hw : w ≤ 9) (v : Str) :
    resolve_url_template (widthTemplate .Time w) [(TVar.Time, v)]
      = padZero v w := by
  interval_cases w
  · rw [resolve_eq_steps]
    rw [resolveVar_unbound [(TVar.Time, v)] TVar.RepresentationID
      (widthTemplate .Time 0) rfl]
    rw [resolveVar_unbound [(TVar.Time, v)] TVar.Number
      (widthTemplate .Time 0) rfl]
    rw [resolveVar_width_eval [(TVar.Time, v)] TVar.Time
      (widthTemplate .Time 0) [] [] v '0' (by decide) (by decide) rfl]
    rw [resolveVar_unbound [(TVar.Time, v)] TVar.Bandwidth _ rfl]
    exact List.append_nil _
  · rw [resolve_eq_steps]
    rw [resolveVar_unbound [(TVar.Time, v)] TVar.RepresentationID
      (widthTemplate .Time 1) rfl]
    rw [resolveVar_unbound [(TVar.Time, v)] TVar.Number
      (widthTemplate .Time 1) rfl]
    rw [resolveVar_width_eval [(TVar.Time, v)] TVar.Time
      (widthTemplate .Time 1) [] [] v '1' (by decide) (by decide) rfl]
    rw [resolveVar_unbound [(TVar.Time, v)] TVar.Bandwidth _ rfl]
    exact List.append_nil _
  · rw [resolve_eq_steps]
    rw [resolveVar_unbound [(TVar.Time, v)] TVar.RepresentationID
      (widthTemplate .Time 2) rfl]
    rw [resolveVar_unbound [(TVar.Time, v)] TVar.Number
      (widthTemplate .Time 2) rfl]
    rw [resolveVar_width_eval [(TVar.Time, v)] TVar.Time
      (widthTemplate .Time 2) [] [] v '2' (by decide) (by decide) rfl]
    rw [resolveVar_unbound [(TVar.Time, v)] TVar.Bandwidth _ rfl]
    exact List.append_nil _
  · rw [resolve_eq_steps]
    rw [resolveVar_unbound [(TVar.Time, v)] TVar.RepresentationID
      (widthTemplate .Time 3) rfl]
    rw [resolveVar_unbound [(TVar.Time, v)] TVar.Number
      (widthTemplate .Time 3) rfl]
    rw [resolveVar_width_eval [(TVar.Time, v)] TVar.Time
      (widthTemplate .Time 3) [] [] v '3' (by decide) (by decide) rfl]
    rw [resolveVar_unbound [(TVar.Time, v)] TVar.Bandwidth _ rfl]
    exact List.append_nil _
  · rw [resolve_eq_steps]
    rw [resolveVar_unbound [(TVar.Time, v)] TVar.RepresentationID
      (widthTemplate .Time 4) rfl]
    rw [resolveVar_unbound [(TVar.Time, v)] TVar.Number
      (widthTemplate .Time 4) rfl]
    rw [resolveVar_width_eval [(TVar.Time, v)] TVar.Time
      (widthTemplate .Time 4) [] [] v '4' (by decide) (by decide) rfl]
    rw [resolveVar_unbound [(TVar.Time, v)] TVar.Bandwidth _ rfl]
    exact List.append_nil _
  · rw [resolve_eq_steps]
    rw [resolveVar_unbound [(TVar.Time, v)] TVar.RepresentationID
      (widthTemplate .Time 5) rfl]
    rw [resolveVar_unbound [(TVar.Time, v)] TVar.Number
      (widthTemplate .Time 5) rfl]
    rw [resolveVar_width_eval [(TVar.Time, v)] TVar.Time
      (widthTemplate .Time 5) [] [] v '5' (by decide) (by decide) rfl]
    rw [resolveVar_unbound [(TVar.Time, v)] TVar.Bandwidth _ rfl]
    exact List.append_nil _
  · rw [resolve_eq_steps]
    rw [resolveVar_unbound [(TVar.Time, v)] TVar.RepresentationID
      (widthTemplate .Time 6) rfl]
    rw [resolveVar_unbound [(TVar.Time, v)] TVar.Number
      (widthTemplate .Time 6) rfl]
    rw [resolveVar_width_eval [(TVar.Time, v)] TVar.Time
      (widthTemplate .Time 6) [] [] v '6' (by decide) (by decide) rfl]
    rw [resolveVar_unbound [(TVar.Time, v)] TVar.Bandwidth _ rfl]
    exact List.append_nil _
  · rw [resolve_eq_steps]
    rw [resolveVar_unbound [(TVar.Time, v)] TVar.RepresentationID
      (widthTemplate .Time 7) rfl]
    rw [resolveVar_unbound [(TVar.Time, v)] TVar.Number
      (widthTemplate .Time 7) rfl]
    rw [resolveVar_width_eval [(TVar.Time, v)] TVar.Time
      (widthTemplate .Time 7) [] [] v '7' (by decide) (by decide) rfl]
    rw [resolveVar_unbound [(TVar.Time, v)] TVar.Bandwidth _ rfl]
    exact List.append_nil _
  · rw [resolve_eq_steps]
    rw [resolveVar_unbound [(TVar.Time, v)] TVar.RepresentationID
      (widthTemplate .Time 8) rfl]
    rw [resolveVar_unbound [(TVar.Time, v)] TVar.Number
      (widthTemplate .Time 8) rfl]
    rw [resolveVar_width_eval [(TVar.Time, v)] TVar.Time
      (widthTemplate .Time 8) [] [] v '8' (by decide) (by decide) rfl]
    rw [resolveVar_unbound [(TVar.Time, v)] TVar.Bandwidth _ rfl]
    exact List.append_nil _
  · rw [resolve_eq_steps]
    rw [resolveVar_unbound [(TVar.Time, v)] TVar.RepresentationID
      (widthTemplate .Time 9) rfl]
    rw [resolveVar_unbound [(TVar.Time, v)] TVar.Number
      (widthTemplate .Time 9) rfl]
    rw [resolveVar_width_eval [(TVar.Time, v)] TVar.Time
      (widthTemplate .Time 9) [] [] v '9' (by decide) (by decide) rfl]
    rw [resolveVar_unbound [(TVar.Time, v)] TVar.Bandwidth _ rfl]
    exact List.append_nil _

theorem widthBandwidthCase (w : Nat) (hw : w ≤ 9) (v : Str) :
    resolve_url_template (widthTemplate .Bandwidth w) [(TVar.Bandwidth, v)]
      = padZero v w := by
  interval_cases w
  · rw [resolve_eq_steps]
    rw [resolveVar_unbound [(TVar.Bandwidth, v)] TVar.RepresentationID
      (widthTemplate .Bandwidth 0) rfl]
    rw [resolveVar_unbound [(TVar.Bandwidth, v)] TVar.Number
      (widthTemplate .Bandwidth 0) rfl]
    rw [resolveVar_unbound [(TVar.Bandwidth, v)] TVar.Time
      (widthTemplate .Bandwidth 0) rfl]
    rw [resolveVar_width_eval [(TVar.Bandwidth, v)] TVar.Bandwidth
      (widthTemplate .Bandwidth 0) [] [] v '0' (by decide) (by decide) rfl]
    exact List.append_nil _
  · rw [resolve_eq_steps]
    rw [resolveVar_unbound [(TVar.Bandwidth, v)] TVar.RepresentationID
      (widthTemplate .Bandwidth 1) rfl]
    rw [resolveVar_unbound [(TVar.Bandwidth, v)] TVar.Number
      (widthTemplate .Bandwidth 1) rfl]
    rw [resolveVar_unbound [(TVar.Bandwidth, v)] TVar.Time
      (widthTemplate .Bandwidth 1) rfl]
    rw [resolveVar_width_eval [(TVar.Bandwidth, v)] TVar.Bandwidth
      (widthTemplate .Bandwidth 1) [] [] v '1' (by decide) (by decide) rfl]
    exact List.append_nil _
  · rw [resolve_eq_steps]
    rw [resolveVar_unbound [(TVar.Bandwidth, v)] TVar.RepresentationID
      (widthTemplate .Bandwidth 2) rfl]
    rw [resolveVar_unbound [(TVar.Bandwidth, v)] TVar.Number
      (widthTemplate .Bandwidth 2) rfl]
    rw [resolveVar_unbound [(TVar.Bandwidth, v)] TVar.Time
      (widthTemplate .Bandwidth 2) rfl]
    rw [resolveVar_width_eval [(TVar.Bandwidth, v)] TVar.Bandwidth
      (widthTemplate .Bandwidth 2) [] [] v '2' (by decide) (by decide) rfl]
    exact List.append_nil _
  · rw [resolve_eq_steps]
    rw [resolveVar_unbound [(TVar.Bandwidth, v)] TVar.RepresentationID
      (widthTemplate .Bandwidth 3) rfl]
    rw [resolveVar_unbound [(TVar.Bandwidth, v)] TVar.Number
      (widthTemplate .Bandwidth 3) rfl]
    rw [resolveVar_unbound [(TVar.Bandwidth, v)] TVar.Time
      (widthTemplate .Bandwidth 3) rfl]
    rw [resolveVar_width_eval [(TVar.Bandwidth, v)] TVar.Bandwidth
      (widthTemplate .Bandwidth 3) [] [] v '3' (by decide) (by decide) rfl]
    exact List.append_nil _
  · rw [resolve_eq_steps]
    rw [resolveVar_unbound [(TVar.Bandwidth, v)] TVar.RepresentationID
      (widthTemplate .Bandwidth 4) rfl]
    rw [resolveVar_unbound [(TVar.Bandwidth, v)] TVar.Number
      (widthTemplate .Bandwidth 4) rfl]
    rw [resolveVar_unbound [(TVar.Bandwidth, v)] TVar.Time
      (widthTemplate .Bandwidth 4) rfl]
    rw [resolveVar_width_eval [(TVar.Bandwidth, v)] TVar.Bandwidth
      (widthTemplate .Bandwidth 4) [] [] v '4' (by decide) (by decide) rfl]
    exact List.append_nil _
  · rw [resolve_eq_steps]
    rw [resolveVar_unbound [(TVar.Bandwidth, v)] TVar.RepresentationID
      (widthTemplate .Bandwidth 5) rfl]
    rw [resolveVar_unbound [(TVar.Bandwidth, v)] TVar.Number
      (widthTemplate .Bandwidth 5) rfl]
    rw [resolveVar_unbound [(TVar.Bandwidth, v)] TVar.Time
      (widthTemplate .Bandwidth 5) rfl]
    rw [resolveVar_width_eval [(TVar.Bandwidth, v)] TVar.Bandwidth
      (widthTemplate .Bandwidth 5) [] [] v '5' (by decide) (by decide) rfl]
    exact List.append_nil _
  · rw [resolve_eq_steps]
    rw [resolveVar_unbound [(TVar.Bandwidth, v)] TVar.RepresentationID
      (widthTemplate .Bandwidth 6) rfl]
    rw [resolveVar_unbound [(TVar.Bandwidth, v)] TVar.Number
      (widthTemplate .Bandwidth 6) rfl]
    rw [resolveVar_unbound [(TVar.Bandwidth, v)] TVar.Time
      (widthTemplate .Bandwidth 6) rfl]
    rw [resolveVar_width_eval [(TVar.Bandwidth, v)] TVar.Bandwidth
      (widthTemplate .Bandwidth 6) [] [] v '6' (by decide) (by decide) rfl]
    exact List.append_nil _
  · rw [resolve_eq_steps]
    rw [resolveVar_unbound [(TVar.Bandwidth, v)] TVar.RepresentationID
      (widthTemplate .Bandwidth 7) rfl]
    rw [resolveVar_unbound [(TVar.Bandwidth, v)] TVar.Number
      (widthTemplate .Bandwidth 7) rfl]
    rw [resolveVar_unbound [(TVar.Bandwidth, v)] TVar.Time
      (widthTemplate .Bandwidth 7) rfl]
    rw [resolveVar_width_eval [(TVar.Bandwidth, v)] TVar.Bandwidth
      (widthTemplate .Bandwidth 7) [] [] v '7' (by decide) (by decide) rfl]
    exact List.append_nil _
  · rw [resolve_eq_steps]
    rw [resolveVar_unbound [(TVar.Bandwidth, v)] TVar.RepresentationID
      (widthTemplate .Bandwidth 8) rfl]
    rw [resolveVar_unbound [(TVar.Bandwidth, v)] TVar.Number
      (widthTemplate .Bandwidth 8) rfl]
    rw [resolveVar_unbound [(TVar.Bandwidth, v)] TVar.Time
      (widthTemplate .Bandwidth 8) rfl]
    rw [resolveVar_width_eval [(TVar.Bandwidth, v)] TVar.Bandwidth
      (widthTemplate .Bandwidth 8) [] [] v '8' (by decide) (by decide) rfl]
    exact List.append_nil _
  · rw [resolve_eq_steps]
    rw [resolveVar_unbound [(TVar.Bandwidth, v)] TVar.RepresentationID
      (widthTemplate .Bandwidth 9) rfl]
    rw [resolveVar_unbound [(TVar.Bandwidth, v)] TVar.Number
      (widthTemplate .Bandwidth 9) rfl]
    rw [resolveVar_unbound [(TVar.Bandwidth, v)] TVar.Time
      (widthTemplate .Bandwidth 9) rfl]
    rw [resolveVar_width_eval [(TVar.Bandwidth, v)] TVar.Bandwidth
      (widthTemplate .Bandwidth 9) [] [] v '9' (by decide) (by decide) rfl]
    exact List.append_nil _

/-- **C6, counterexample.** The claim asserts the width form is replaced for
ANY positive number of width digits, including `10`.  The source regex
(`fetch.rs:442`) is `\$<k>%0([\d])d\$`, whose width group is a SINGLE digit:
`$Number%010d$` does not match, so the template is returned unchanged
instead of the claimed value `"42"` zero-padded to width 10. -/
theorem c6_counterexample :
    resolve_url_template "$Number%010d$".data [(.Number, "42".data)]
        = "$Number%010d$".data
    ∧ resolve_url_template "$Number%010d$".data [(.Number, "42".data)]
        ≠ padZero "42".data 10 :=
  ⟨by decide, by decide⟩

/-- **C6, amended.** For every recognized bound variable `k` and every width
written with a SINGLE digit (`w ≤ 9`), the resolver replaces the (first)
occurrence of `$k%0<w>d$` with the bound value zero-padded on the left to
width `w`; widths of two or more digits are not matched by the source regex
and are left unchanged (`c6_counterexample`). -/
theorem c6_width_single_digit (k : TVar) (w : Nat) (hw : w ≤ 9) (v : Str) :
    resolve_url_template (widthTemplate k w) [(k, v)] = padZero v w := by
  cases k with
  | RepresentationID => exact widthRepCase w hw v
  | Number => exact widthNumberCase w hw v
  | Time => exact widthTimeCase w hw v
  | Bandwidth => exact widthBandwidthCase w hw v

/-- Witness for `c6_width_single_digit` at a concrete input
(the `$Number%06d$` case of the source unit tests). -/
theorem c6_witness :
    resolve_url_template (widthTemplate .Number 6) [(.Number, "42".data)]
      = padZero "42".data 6 :=
  c6_width_single_digit .Number 6 (by decide) "42".data

/-- `fetch.rs:1525`: `audio_fragments.len() + video_fragments.len() + 2`
(the extra 2 accounting for the manifest fetch and the muxing step). -/
def segment_count (a v : Nat) : Nat := a + v + 2

/-- `(100.0 * segment_counter as f32 / segment_count as f32).ceil() as u32`
(fetch.rs:1540 and fetch.rs:1647), modelled exactly as `⌈100·counter/count⌉`
over `ℕ`.  At every input relevant to the claims the `f32` computation
agrees with the exact ceiling: the operands are integers far below `2^24`
and the quotient is never within an `f32` rounding error of an integer it
does not equal (its distance from any other integer is at least
`1/count`). -/
def progress_percent (count counter : Nat) : Nat :=
  (100 * counter + (count - 1)) / count

/-- The sequence of percent values delivered to every progress observer over
a successful run fetching `a` audio and `v` video fragments: `1` at manifest
fetch (fetch.rs:515), one update per segment with the running counter
(fetch.rs:1539-1543 and fetch.rs:1646-1650), `99` at muxing (fetch.rs:1734),
`100` at completion (fetch.rs:1835). -/
def progressSequence (a v : Nat) : List Nat :=
  1 :: ((List.range (a + v)).map fun i =>
    progress_percent (segment_count a v) (i + 1)) ++ [99, 100]

/-- Executable check that a list of percent values is monotonically
non-decreasing. -/
def isMonotoneSeq : List Nat → Bool
  | [] => true
  | [_] => true
  | x :: y :: rest => Nat.ble x y && isMonotoneSeq (y :: rest)

theorem isMonotoneSeq_of_chain' :
    ∀ l : List Nat, List.Chain' (· ≤ ·) l → isMonotoneSeq l = true
  | [], _ => rfl
  | [_], _ => rfl
  | x :: y :: rest, h => by
    rw [List.chain'_cons] at h
    obtain ⟨h1, h2⟩ := h
    have ih := isMonotoneSeq_of_chain' (y :: rest) h2
    simp [isMonotoneSeq, ih, Nat.ble_eq, h1]

/-- **C7, counterexample.** The claim asserts the delivered percent sequence
is monotonically non-decreasing FOR EVERY count of audio and video
fragments.  With 199 fragments the last per-segment update is
`⌈100·199/201⌉ = 100`, and the muxing update that follows is `99`: the
sequence decreases. -/
theorem c7_counterexample :
    ¬ List.Chain' (· ≤ ·) (progressSequence 199 0) := by
  intro hch
  have hmono := isMonotoneSeq_of_chain' (progressSequence 199 0) hch
  have hfalse : isMonotoneSeq (progressSequence 199 0) = false := by decide
  rw [hfalse] at hmono
  exact Bool.false_ne_true hmono

theorem progress_percent_mono (m c d : Nat) (h : c ≤ d) :
    progress_percent m c ≤ progress_percent m d :=
  Nat.div_le_div_right (by omega)

theorem progress_percent_le_99 (n c : Nat) (hn : n ≤ 198) (hc : c ≤ n) :
    progress_percent (n + 2) c ≤ 99 := by
  have h2 : (0 : Nat) < n + 2 := by omega
  have hlt : 100 * c + (n + 2 - 1) < 100 * (n + 2) := by omega
  have := (Nat.div_lt_iff_lt_mul h2).mpr hlt
  unfold progress_percent
  omega

theorem progress_percent_one_le (m c : Nat) (hm : 0 < m) (hc : 1 ≤ c) :
    1 ≤ progress_percent m c := by
  unfold progress_percent
  rw [Nat.one_le_div_iff hm]
  omega

/-- **C7, amended.** The delivered percent sequence is monotonically
non-decreasing whenever the total count of audio and video fragments is at
most 198 (equivalently whenever `⌈100·n/(n+2)⌉ ≤ 99`).  For 199 or more
fragments the last per-segment update reaches 100 and the muxing update of
99 decreases (`c7_counterexample`). -/
theorem c7_progress_monotone (a v : Nat) (h : a + v ≤ 198) :
    List.Chain' (· ≤ ·) (progressSequence a v) := by
  have key : ∀ n : Nat, n ≤ 198 → List.Chain' (· ≤ ·)
      ((1 :: (List.range n).map fun i => progress_percent (n + 2) (i + 1))
        ++ [99, 100]) := by
    intro n hn
    rw [List.chain'_append]
    refine ⟨?_, ?_, ?_⟩
    · rw [List.chain'_cons']
      constructor
      · intro y hy
        cases n with
        | zero => simp at hy
        | succ k =>
          rw [List.range_succ_eq_map, List.map_cons, List.head?_cons,
            Option.mem_some_iff] at hy
          rw [← hy]
          exact progress_percent_one_le (k + 1 + 2) 1 (by omega) le_rfl
      · rw [List.chain'_map]
        cases n with
        | zero => simp
        | succ k =>
          rw [List.chain'_range_succ]
          intro m hm
          exact progress_percent_mono (k + 1 + 2) (m + 1) (m + 1 + 1)
            (by omega)
    · simp [List.chain'_cons, List.chain'_singleton]
    · intro x hx y hy
      rw [List.head?_cons, Option.mem_some_iff] at hy
      cases n with
      | zero =>
        simp only [List.range_zero, List.map_nil, List.getLast?_singleton,
          Option.mem_some_iff] at hx
        rw [← hx, ← hy]
        omega
      | succ k =>
        rw [List.range_succ, List.map_append, List.map_singleton,
          ← List.cons_append, List.getLast?_concat, Option.mem_some_iff]
          at hx
        rw [← hx, ← hy]
        exact progress_percent_le_99 (k + 1) (k + 1) hn le_rfl
  have hseq : progressSequence a v
      = (1 :: (List.range (a + v)).map fun i =>
          progress_percent ((a + v) + 2) (i + 1)) ++ [99, 100] := rfl
  rw [hseq]
  exact key (a + v) h

/-- Witness for `c7_progress_monotone` at a concrete input. -/
theorem c7_witness : List.Chain' (· ≤ ·) (progressSequence 4 2) :=
  c7_progress_monotone 4 2 (by decide)

/-- UTF-8 bytes of a Rust `String`. -/
abbrev ByteStr := List Nat

/-- A UTF-8 continuation byte (`0x80..0xBF`); a byte offset holding one is
not a char boundary. -/
def isUtf8Cont (b : Nat) : Bool := 128 ≤ b && b < 192

/-- Rust byte-slice `s[0..2]` of a `&str`: `some` of the first two bytes
when the string has at least two bytes and byte offset 2 is a char
boundary; `none` models the Rust panic otherwise. -/
def sliceTwo (s : ByteStr) : Option ByteStr :=
  match s with
  | b0 :: b1 :: [] => some [b0, b1]
  | b0 :: b1 :: b2 :: _ => if isUtf8Cont b2 then none else some [b0, b1]
  | _ => none

/-- `adaptation_lang_distance` (fetch.rs:408-420), with the `lang` attribute
of the AdaptationSet as first argument.  `none` models a Rust panic, raised
by the byte slices `lang[0..2]` and `language_preference[0..2]` when either
string is shorter than two bytes or has a multi-byte character straddling
offset 2. -/
def adaptation_lang_distance (lang : Option ByteStr)
    (language_preference : ByteStr) : Option Nat :=
  match lang with
  | some l =>
    if l = language_preference then some 0
    else
      match sliceTwo l, sliceTwo language_preference with
      | some l2, some p2 => if l2 = p2 then some 5 else some 100
      | _, _ => none
  | none => some 100

/-- The distance the claim describes (0 on equality, 5 when the first two
characters agree, 100 otherwise or when `lang` is absent), stated on the
byte encoding.  This definition follows the claim's words, for comparison
with `adaptation_lang_distance`. -/
def claimLangDistance (lang : Option ByteStr) (p : ByteStr) : Nat :=
  match lang with
  | none => 100
  | some l =>
    if l = p then 0
    else if List.take 2 l = List.take 2 p then 5 else 100

theorem sliceTwo_take (s x : ByteStr) (h : sliceTwo s = some x) :
    x = List.take 2 s := by
  match s with
  | [] => simp [sliceTwo] at h
  | [b0] => simp [sliceTwo] at h
  | b0 :: b1 :: [] =>
    rw [sliceTwo] at h
    injection h with h
    rw [← h]
    rfl
  | b0 :: b1 :: b2 :: rest =>
    rw [sliceTwo] at h
    split at h
    · exact absurd h (by simp)
    · injection h with h
      rw [← h]
      rfl

/-- **C9, counterexample.** The claim asserts `adaptation_lang_distance` is
total and yields 100 when `a.lang` is shorter than two characters.  With
`a.lang = "f"` (one byte) and preference `"en-US"`, the slice `lang[0..2]`
panics: the function does not return at all, let alone 100. -/
theorem c9_counterexample :
    adaptation_lang_distance (some [102]) [101, 110, 45, 85, 83] = none
    ∧ adaptation_lang_distance (some [102]) [101, 110, 45, 85, 83]
        ≠ some 100 :=
  ⟨by decide, by decide⟩

/-- **C9, amended.** `adaptation_lang_distance` returns the claimed
distance (0 on equality, 5 on a first-two-byte match, 100 otherwise or when
`lang` is absent) whenever its byte slices cannot panic: when the two
strings are equal, when `lang` is absent, or when both strings have at
least two bytes with a char boundary at offset 2.  When `lang` is present,
unequal to the preference, and either string is shorter than two bytes or
splits a multi-byte character at offset 2, the function panics instead
(`c9_counterexample`). -/
theorem c9_lang_distance_amended (l p : ByteStr)
    (hlp : l ≠ p → (sliceTwo l).isSome ∧ (sliceTwo p).isSome) :
    adaptation_lang_distance (some l) p = some (claimLangDistance (some l) p)
    ∧ adaptation_lang_distance none p = some (claimLangDistance none p) := by
  refine ⟨?_, rfl⟩
  by_cases heq : l = p
  · subst heq
    simp [adaptation_lang_distance, claimLangDistance]
  · obtain ⟨h1, h2⟩ := hlp heq
    obtain ⟨l2, hl2⟩ := Option.isSome_iff_exists.mp h1
    obtain ⟨p2, hp2⟩ := Option.isSome_iff_exists.mp h2
    have htl := sliceTwo_take l l2 hl2
    have htp := sliceTwo_take p p2 hp2
    simp only [adaptation_lang_distance, claimLangDistance, if_neg heq,
      hl2, hp2, ← htl, ← htp]
    by_cases hq : l2 = p2 <;> simp [hq]

/-- Witness for `c9_lang_distance_amended` at the spec's own example
(S6: `lang="en-GB"`, preference `"en-US"` gives distance 5). -/
theorem c9_witness :
    adaptation_lang_distance (some [101, 110, 45, 71, 66])
        [101, 110, 45, 85, 83]
      = some (claimLangDistance (some [101, 110, 45, 71, 66])
        [101, 110, 45, 85, 83])
    ∧ adaptation_lang_distance none [101, 110, 45, 85, 83]
      = some (claimLangDistance none [101, 110, 45, 85, 83]) :=
  c9_lang_distance_amended [101, 110, 45, 71, 66] [101, 110, 45, 85, 83]
    (fun _ => ⟨by decide, by decide⟩)

/-- The URL to which the manifest re-fetch request is issued when
`MPD.Location` is non-empty (fetch.rs:535-549): the code builds the request
with `client.get(&downloader.mpd_url)` (fetch.rs:541), i.e. the original
manifest URL, and `none` when no relocation happens. -/
def relocation_request_url (mpd_url : String) (locations : List String) :
    Option String :=
  match locations with
  | [] => none
  | _ :: _ => some mpd_url

/-- **C2.** Evaluation of the relocation step at the failing input: with
`Location[0] = "http://relocated/b.mpd"`, the re-fetch GET goes to the
original `mpd_url`, not to the Location URL the claim (and the DASH
specification quoted at fetch.rs:533-534) requires. -/
theorem c2_relocation_uses_original_url :
    relocation_request_url "http://origin/a.mpd" ["http://relocated/b.mpd"]
        = some "http://origin/a.mpd"
    ∧ relocation_request_url "http://origin/a.mpd" ["http://relocated/b.mpd"]
        ≠ some "http://relocated/b.mpd" :=
  ⟨rfl, by decide⟩

/-- Error taxonomy of the library (the `DashMpdError` sum type used
throughout fetch.rs), with the context string carried by each variant. -/
inductive DashMpdError
  | Network (msg : String)
  | Parsing (msg : String)
  | Io (msg : String)
  | UnhandledMediaStream (msg : String)
deriving DecidableEq

/-- Outcome of the retry-wrapped fetch closure for one audio segment
(fetch.rs:1571-1590), as a function of the final HTTP status reached after
retries.  `error_for_status` inside the closure promotes every status in
400..599 to a `reqwest` error; `categorize_reqwest_error` (fetch.rs:478-484)
marks 408/429/503/504 transient — retried by `retry_notify` until the
backoff gives up — and everything else permanent, returned at once.  Either
way `retry_notify`'s error is promoted to a fatal `Network` error by the
`?` at fetch.rs:1589-1590 (`network_error` prefixes the context string
modelled here).  Statuses below 400 come back as a response. -/
def retry_fetch_audio (finalStatus : Nat) : Except DashMpdError Nat :=
  if 400 ≤ finalStatus then
    .error (.Network "fetching DASH audio segment")
  else .ok finalStatus

/-- `response.status().is_success()`: 2xx. -/
def is_success (s : Nat) : Bool := 200 ≤ s && s < 300

/-- State threaded through the segment loop: the session-wide
`download_errors` tally (fetch.rs:1523) and the number of segment bodies
written to the temp file. -/
structure SegLoopState where
  download_errors : Nat
  written : Nat
deriving DecidableEq

/-- One iteration of the audio fragment loop (fetch.rs:1537-1627) for a
non-data-URL fragment, as a function of the fragment's final HTTP status
and of `ctypeOk = !downloader.content_type_checks ||
content_type_audio_p(response)`: a permanent (or retry-exhausted) error
aborts via `?`; a 2xx response is written (or skipped with a warning on a
content-type mismatch); any other delivered status increments
`download_errors` and aborts once the tally exceeds 10
(fetch.rs:1613-1622). -/
def audio_segment_step (st : SegLoopState) (finalStatus : Nat)
    (ctypeOk : Bool) : Except DashMpdError SegLoopState :=
  match retry_fetch_audio finalStatus with
  | .error e => .error e
  | .ok s =>
    if is_success s then
      if ctypeOk then .ok ⟨st.download_errors, st.written + 1⟩
      else .ok st
    else
      if 10 < st.download_errors + 1 then
        .error (.Network "more than 10 HTTP download errors")
      else .ok ⟨st.download_errors + 1, st.written⟩

/-- The audio fragment loop over a list of (final status, content-type ok)
pairs, one per fragment. -/
def download_audio_segments (st : SegLoopState) :
    List (Nat × Bool) → Except DashMpdError SegLoopState
  | [] => .ok st
  | (s, ct) :: rest =>
    match audio_segment_step st s ct with
    | .error e => .error e
    | .ok st2 => download_audio_segments st2 rest

/-- **C1, counterexample.** The claim asserts a permanent HTTP error on a
single segment is never fatal before the 11th failure.  A single segment
whose final status is 404 (a permanent HTTP failure) aborts the whole
download at once with the `Network` error from the retry wrapper — the
`download_errors` tally is never reached, because `error_for_status` turns
every 4xx/5xx into an error that the `?` at fetch.rs:1589-1590 propagates. -/
theorem c1_counterexample :
    download_audio_segments ⟨0, 0⟩ [(404, true)]
      = .error (.Network "fetching DASH audio segment") := rfl

/-- **C1, amended.** The `download_errors` tally governs only fragments
whose delivered response has a non-2xx status below 400 (informational or
redirect statuses, which `error_for_status` does not promote to an error):
each of the first 10 such fragments is skipped and the download continues,
and the tally aborts the download with
`Network("more than 10 HTTP download errors")` as soon as it exceeds 10.
A permanent 4xx/5xx failure instead aborts the download immediately
(`c1_counterexample`). -/
theorem c1_error_tally (l : List (Nat × Bool)) (st : SegLoopState)
    (hst : st.download_errors ≤ 10)
    (h : ∀ p ∈ l, p.1 < 400 ∧ is_success p.1 = false) :
    download_audio_segments st l =
      if st.download_errors + l.length ≤ 10 then
        .ok ⟨st.download_errors + l.length, st.written⟩
      else .error (.Network "more than 10 HTTP download errors") := by
  induction l generalizing st with
  | nil =>
    rw [download_audio_segments, if_pos (by simpa using hst)]
    simp
  | cons p rest ih =>
    obtain ⟨s, ct⟩ := p
    obtain ⟨h1, h2⟩ := h (s, ct) (by simp)
    have hrest : ∀ q ∈ rest, q.1 < 400 ∧ is_success q.1 = false :=
      fun q hq => h q (by simp [hq])
    simp only at h1 h2
    have hstep : audio_segment_step st s ct =
        if 10 < st.download_errors + 1 then
          .error (.Network "more than 10 HTTP download errors")
        else .ok ⟨st.download_errors + 1, st.written⟩ := by
      rw [audio_segment_step, retry_fetch_audio, if_neg (by omega)]
      simp only [h2, Bool.false_eq_true, if_false]
    rw [download_audio_segments, hstep]
    by_cases hd : 10 < st.download_errors + 1
    · rw [if_pos hd]
      have hc : ¬ st.download_errors + ((s, ct) :: rest).length ≤ 10 := by
        simp only [List.length_cons]
        omega
      rw [if_neg hc]
    · rw [if_neg hd]
      show download_audio_segments ⟨st.download_errors + 1, st.written⟩ rest
        = _
      rw [ih ⟨st.download_errors + 1, st.written⟩
        (by show st.download_errors + 1 ≤ 10; omega) hrest]
      have harith : st.download_errors + 1 + rest.length
          = st.download_errors + (rest.length + 1) := by omega
      simp only [harith, List.length_cons]

/-- Witness for `c1_error_tally`: eleven fragments answered with status 304
make the tally reach 11 and the download aborts with the claimed `Network`
error (the first ten were skipped). -/
theorem c1_witness :
    download_audio_segments ⟨0, 0⟩ (List.replicate 11 (304, true))
      = .error (.Network "more than 10 HTTP download errors") := by
  have h := c1_error_tally (List.replicate 11 (304, true)) ⟨0, 0⟩
    (by decide) (by decide)
  simpa using h

/-- One `<S t? d r?>` entry of a `SegmentTimeline`.  Modelled from the spec:
the struct lives in the crate's manifest-model module outside fetch.rs; per
spec §3 `t` and `r` are optional and `d` is the duration in timescale units,
with `r` signed (fetch.rs:960-977 compares it with 0 and with an `i64`
counter). -/
structure SEntry where
  t : Option Nat
  d : Nat
  r : Option Int
deriving DecidableEq

/-- The inner repeat loop for `S.@r` (fetch.rs:960-987), emitting
`(Time, Number)` pairs.  `count`, `time` and `num` are the loop variables
`count`, `segment_time` and `number`; `endTime` is
`period_duration_secs * timescale as f64` (modelled exactly, the claims'
durations being integral).  The loop body increments `count`, breaks when
`r ≥ 0 ∧ count > r` or when `r < 0 ∧ segment_time > end_time`, and
otherwise advances `segment_time` by `d`, emits, and advances `number`.
The source loop has no intrinsic bound, so the model is fuel-indexed:
`none` means the loop is still running after `fuel` iterations. -/
def repeatLoop (r : Int) (d : Nat) (endTime : ℚ) :
    Nat → Int → Nat → Nat → Option (List (Nat × Nat) × Nat × Nat)
  | 0, _, _, _ => none
  | fuel + 1, count, time, num =>
    if (0 ≤ r ∧ count + 1 > r) ∨ (r < 0 ∧ (time : ℚ) > endTime) then
      some ([], time, num)
    else
      match repeatLoop r d endTime fuel (count + 1) (time + d) (num + 1) with
      | none => none
      | some (l, tf, nf) => some ((time + d, num) :: l, tf, nf)

/-- The SegmentTemplate+SegmentTimeline walk (fetch.rs:942-990), emitting
one `(Time, Number)` pair per media fragment, in order, from the state
`(segment_time, number)`.  For each `<S>` entry the source emits a fragment
with the CURRENT `segment_time` and `number`, advances `number`, only THEN
applies `S.@t` to `segment_time` (fetch.rs:956-958), sets
`segment_duration := S.@d`, runs the repeat loop when `S.@r` is present,
and finally adds `segment_duration` to `segment_time`. -/
def timelineWalkGo (endTime : ℚ) (fuel : Nat) :
    List SEntry → Nat → Nat → Option (List (Nat × Nat))
  | [], _, _ => some []
  | s :: rest, time, num =>
    match s.r with
    | some r =>
      match repeatLoop r s.d endTime fuel 0
          (match s.t with | some t => t | none => time) (num + 1) with
      | none => none
      | some (l, t2, n2) =>
        match timelineWalkGo endTime fuel rest (t2 + s.d) n2 with
        | none => none
        | some l2 => some ((time, num) :: (l ++ l2))
    | none =>
      match timelineWalkGo endTime fuel rest
          ((match s.t with | some t => t | none => time) + s.d) (num + 1) with
      | none => none
      | some l2 => some ((time, num) :: l2)

/-- The walk over a whole `SegmentTimeline`, starting from
`(segment_time, number) = (0, start_number)` (fetch.rs:944-946). -/
def timelineWalk (endTime : ℚ) (startNumber fuel : Nat) (segs : List SEntry) :
    Option (List (Nat × Nat)) :=
  timelineWalkGo endTime fuel segs 0 startNumber

/-- **C3.** Evaluation of the timeline walk at the failing input: a single
`<S t=100 d=10>` entry with `startNumber = 1`.  The source emits the entry's
fragment with `Time = 0` (the prior `segment_time`) and applies `@t` only
afterwards, whereas the claim requires the fragment to be resolved with
`Time = S.@t = 100`. -/
theorem c3_walk_applies_t_after_emission :
    timelineWalk 1000 1 1 [⟨some 100, 10, none⟩] = some [(0, 1)]
    ∧ ((0 : Nat), (1 : Nat)) ≠ ((100 : Nat), (1 : Nat)) :=
  ⟨rfl, by decide⟩

theorem repeatLoop_d0_diverges (endTime : ℚ) :
    ∀ fuel (count : Int) (time num : Nat), (time : ℚ) ≤ endTime →
      repeatLoop (-1) 0 endTime fuel count time num = none := by
  intro fuel
  induction fuel with
  | zero => intro count time num h; rfl
  | succ n ih =>
    intro count time num h
    rw [repeatLoop, if_neg ?hcond]
    case hcond =>
      rintro (⟨h0, _⟩ | ⟨_, hgt⟩)
      · exact absurd h0 (by norm_num)
      · exact absurd hgt (not_lt.mpr h)
    rw [ih (count + 1) (time + 0) (num + 1) (by simpa using h)]

/-- **C10.** The claim asserts the fragment-emission walk terminates for
every finite SegmentTimeline, in particular when some S entry has a
negative `@r` together with `@d = 0`.  On the entry `<S d=0 r=-1>` (period
duration 10, timescale 1) the source's repeat loop never advances
`segment_time`, so the break condition `segment_time > end_time` never
holds and the loop runs forever: the fuel-indexed model returns `none` for
EVERY fuel. -/
theorem c10_walk_diverges (fuel : Nat) :
    timelineWalk 10 1 fuel [⟨none, 0, some (-1)⟩] = none := by
  have h := repeatLoop_d0_diverges 10 fuel 0 0 2 (by norm_num)
  simp only [timelineWalk, timelineWalkGo, h]

/-- `is_absolute_url` (fetch.rs:365-369). -/
def is_absolute_url (s : Str) : Bool :=
  "http://".data.isPrefixOf s || "https://".data.isPrefixOf s
  || "file://".data.isPrefixOf s

/-- `fetchable_xlink_href` (fetch.rs:374-376): per the DASH text quoted
there, for `urn:mpeg:dash:resolve-to-zero:2013` no HTTP GET is issued "and
the in-MPD element shall be removed from the MPD". -/
def fetchable_xlink_href (href : Str) : Bool :=
  !href.isEmpty && !(href == "urn:mpeg:dash:resolve-to-zero:2013".data)

/-- Model of the external `url` crate as used by fetch.rs: `Url::parse` of
an absolute URL keeps its string, and `join` resolves a reference against a
base.  None of the claims below depends on the exact RFC 3986 join
semantics, so the join is modelled as concatenation, and both operations as
always succeeding (their error paths, propagated by `?` in the source, are
not exercised by any claim). -/
def urlJoin (base rel : Str) : Str := base ++ rel

/-- `u64::to_string` of a segment number or time. -/
def natToStr (n : Nat) : Str := Nat.toDigits 10 n

/-- Worker for `split_terminator('-')`: plain splitting at `'-'`. -/
def splitDashGo : List Char → List Char → List Str
  | [], acc => [acc.reverse]
  | c :: rest, acc =>
    if c = '-' then acc.reverse :: splitDashGo rest []
    else splitDashGo rest (c :: acc)

/-- Rust `str::split_terminator('-')`: like splitting at every dash, but a
final empty piece (from a trailing dash or an empty input) is dropped. -/
def split_terminator_dash (s : Str) : List Str :=
  match (splitDashGo s []).getLast? with
  | some t =>
    if t.isEmpty then (splitDashGo s []).dropLast else splitDashGo s []
  | none => splitDashGo s []

/-- Rust `str::parse::<u64>()`: an optional leading `+`, then one or more
ASCII digits, with the value below `2^64` (overflow is a parse error). -/
def parseU64 (s : Str) : Option Nat :=
  match (match s with | '+' :: rest => rest | l => l) with
  | [] => none
  | ds =>
    if ds.all Char.isDigit then
      if ds.foldl (fun acc c => acc * 10 + (c.toNat - 48)) 0 < 2 ^ 64 then
        some (ds.foldl (fun acc c => acc * 10 + (c.toNat - 48)) 0)
      else none
    else none

/-- `parse_range` (fetch.rs:89-99): split at dashes (terminator semantics),
demand exactly two pieces, parse both as `u64`. -/
def parse_range (range : Str) : Except DashMpdError (Nat × Nat) :=
  match split_terminator_dash range with
  | [a, b] =>
    match parseU64 a with
    | none => .error (.Parsing "invalid start for range specifier")
    | some s =>
      match parseU64 b with
      | none => .error (.Parsing "invalid end for range specifier")
      | some e => .ok (s, e)
  | _ =>
    .error (.Parsing ("invalid range specifier: " ++ String.mk range))

-- The spec's round-trip/boundary examples for the range parser.
example : parse_range "45-67".data = .ok (45, 67) := rfl
example : parse_range "-".data
    = .error (.Parsing ("invalid range specifier: " ++ "-")) := rfl
example : parse_range "45".data
    = .error (.Parsing ("invalid range specifier: " ++ "45")) := rfl
example : parse_range "a-b".data
    = .error (.Parsing "invalid start for range specifier") := rfl

/-- `MediaFragment` (fetch.rs:101-105). -/
structure MediaFragment where
  url : Str
  start_byte : Option Nat
  end_byte : Option Nat
deriving DecidableEq

/-- Modelled from the spec: the `Initialization` child of a SegmentList or
SegmentBase (§4.F.1/§4.F.5), with optional `sourceURL` and `range`; the
struct itself lives in the crate's manifest-model module outside fetch.rs. -/
structure InitializationM where
  sourceURL : Option Str
  range : Option Str
deriving DecidableEq

/-- Modelled from the spec: one `SegmentURL` child of a SegmentList
(§4.F.1), with optional `media` and `mediaRange` (`indexRange` is ignored
by fetch.rs:828 and so not modelled). -/
structure SegmentURL where
  media : Option Str
  mediaRange : Option Str
deriving DecidableEq

/-- Modelled from the spec (§4.F.1): a `SegmentList` node. -/
structure SegmentList where
  Initialization : Option InitializationM
  segment_urls : List SegmentURL
deriving DecidableEq

/-- Modelled from the spec (§4.F.5): a `SegmentBase` node (only the fields
fetch.rs reads). -/
structure SegmentBase where
  initialization : Option InitializationM
deriving DecidableEq

/-- Modelled from the spec (§4.F.2): a `SegmentTimeline` node. -/
structure SegmentTimelineM where
  segments : List SEntry
deriving DecidableEq

/-- Modelled from the spec (§4.F.2-4): a `SegmentTemplate` node.  The
`duration` attribute is an `f64` in the crate, modelled exactly over `ℚ`. -/
structure SegmentTemplate where
  initialization : Option Str
  media : Option Str
  duration : Option ℚ
  timescale : Option Nat
  startNumber : Option Nat
  SegmentTimeline : Option SegmentTimelineM
deriving DecidableEq

/-- Modelled from the spec (§3): a `BaseURL` element. -/
structure BaseURL where
  base : Str
deriving DecidableEq

/-- Modelled from the spec (§3): a `Representation` node, with the fields
fetch.rs reads. -/
structure Representation where
  id : Option Str
  bandwidth : Option Nat
  href : Option Str
  BaseURL : List BaseURL
  SegmentList : Option SegmentList
  SegmentBase : Option SegmentBase
  SegmentTemplate : Option SegmentTemplate
deriving DecidableEq

/-- Modelled from the spec (§3): an `AdaptationSet` node.  `lang` is kept
as UTF-8 bytes, the representation `adaptation_lang_distance` slices. -/
structure AdaptationSet where
  lang : Option ByteStr
  contentType : Option Str
  mimeType : Option Str
  href : Option Str
  BaseURL : List BaseURL
  SegmentTemplate : Option SegmentTemplate
  SegmentList : Option SegmentList
  representations : List Representation
deriving DecidableEq

/-- Modelled from the spec (§3): a `Period` node. -/
structure Period where
  href : Option Str
  duration : Option ℚ
  BaseURL : List BaseURL
  adaptations : List AdaptationSet
deriving DecidableEq

/-- Modelled from the spec (§4.E): the parser-supplied audio classifier
`is_audio_adaptation`, via `@contentType` or a `@mimeType` starting with
`audio/`. -/
def is_audio_adaptation (a : AdaptationSet) : Bool :=
  (match a.contentType with
   | some c => c == "audio".data
   | none => false)
  || (match a.mimeType with
      | some m => "audio/".data.isPrefixOf m
      | none => false)

/-- The initialization part of the SegmentList emission block
(fetch.rs:804-824 / fetch.rs:859-879): byte range from `@range`, URL from
the template-resolved `sourceURL` (parsed if absolute, joined otherwise),
or the current base URL if `sourceURL` is absent. -/
def segmentListInit (sl : SegmentList) (base_url : Str) (dict : Params) :
    Except DashMpdError (List MediaFragment) :=
  match sl.Initialization with
  | none => .ok []
  | some init =>
    match (match init.range with
           | none => Except.ok (none, none)
           | some r =>
             match parse_range r with
             | .error e => .error e
             | .ok (s, e) => .ok (some s, some e)) with
    | .error e => .error e
    | .ok (sb, eb) =>
      match init.sourceURL with
      | some su =>
        .ok [⟨if is_absolute_url (resolve_url_template su dict) then
                resolve_url_template su dict
              else urlJoin base_url (resolve_url_template su dict),
              sb, eb⟩]
      | none => .ok [⟨base_url, sb, eb⟩]

/-- The per-`SegmentURL` part of the SegmentList emission block
(fetch.rs:825-850 / fetch.rs:880-906): one fragment per `SegmentURL`, from
joined `@media` (with `@mediaRange`) or, if `@media` is absent and the
fallback `BaseURL` list is non-empty, from its first entry. -/
def segmentListUrls (fallback : List BaseURL) (base_url : Str) :
    List SegmentURL → Except DashMpdError (List MediaFragment)
  | [] => .ok []
  | su :: rest =>
    match (match su.mediaRange with
           | none => Except.ok (none, none)
           | some r =>
             match parse_range r with
             | .error e => .error e
             | .ok (s, e) => .ok (some s, some e)) with
    | .error e => .error e
    | .ok (sb, eb) =>
      match segmentListUrls fallback base_url rest with
      | .error e => .error e
      | .ok more =>
        match su.media with
        | some m => .ok (⟨urlJoin base_url m, sb, eb⟩ :: more)
        | none =>
          match fallback with
          | [] => .ok more
          | bu :: _ =>
            .ok (⟨if is_absolute_url bu.base then bu.base
                  else urlJoin base_url bu.base, sb, eb⟩ :: more)

/-- Addressing mode (1): the whole SegmentList emission block, appending to
the session-wide fragment list. -/
def emitSegmentList (sl : SegmentList) (fallback : List BaseURL)
    (base_url : Str) (dict : Params) (global : List MediaFragment) :
    Except DashMpdError (List MediaFragment) :=
  match segmentListInit sl base_url dict with
  | .error e => .error e
  | .ok i =>
    match segmentListUrls fallback base_url sl.segment_urls with
    | .error e => .error e
    | .ok u => .ok (global ++ i ++ u)

/-- Addressing mode (5), `SegmentBase` (fetch.rs:1035-1073): an optional
initialization fragment from `Initialization@sourceURL` (with its
`@range`), then one fragment for the full base-URL resource. -/
def emitSegmentBase (sb : SegmentBase) (base_url : Str) (dict : Params)
    (global : List MediaFragment) :
    Except DashMpdError (List MediaFragment) :=
  match (match sb.initialization with
         | none => Except.ok []
         | some init =>
           match (match init.range with
                  | none => Except.ok (none, none)
                  | some r =>
                    match parse_range r with
                    | .error e => .error e
                    | .ok (s, e) => .ok (some s, some e)) with
           | .error e => .error e
           | .ok (sbyte, ebyte) =>
             match init.sourceURL with
             | some su =>
               .ok [(⟨if is_absolute_url (resolve_url_template su dict) then
                        resolve_url_template su dict
                      else urlJoin base_url (resolve_url_template su dict),
                      sbyte, ebyte⟩ : MediaFragment)]
             | none => .ok []) with
  | .error e => .error e
  | .ok i => .ok (global ++ i ++ [⟨base_url, none, none⟩])

/-- The effective `initialization` after the re-read at fetch.rs:918-920. -/
def effInit (st : SegmentTemplate) (opt_init0 : Option Str) : Option Str :=
  match st.initialization with
  | some i => some i
  | none => opt_init0

/-- The effective `media` after the re-read at fetch.rs:921-923. -/
def effMedia (st : SegmentTemplate) (opt_media0 : Option Str) : Option Str :=
  match st.media with
  | some m => some m
  | none => opt_media0

/-- The effective `timescale` after the re-read at fetch.rs:924-926 (also
re-applied inside mode (3)/(4) at fetch.rs:1010, which is idempotent). -/
def effTimescale (st : SegmentTemplate) (timescale0 : Nat) : Nat :=
  match st.timescale with
  | some ts => ts
  | none => timescale0

/-- The effective `startNumber` after the re-read at fetch.rs:927-929. -/
def effStartNumber (st : SegmentTemplate) (start_number0 : Nat) : Nat :=
  match st.startNumber with
  | some sn => sn
  | none => start_number0

/-- Addressing modes (2)-(4): the effective `SegmentTemplate` branch of the
cascade (fetch.rs:907-1034) for the audio stream.  `opt_init0`,
`opt_media0`, `opt_duration0`, `timescale0` and `start_number0` are the
AdaptationSet-level defaults loaded at fetch.rs:761-777; the effective
template's attributes override them (`opt_duration0` is NOT re-read: mode
(3)/(4) reads `st.duration` itself, fetch.rs:1016-1018, and falls back to
the default at fetch.rs:1012-1015).  With a `SegmentTimeline` child this is
mode (2): optional init fragment, then the timeline walk over the `<S>`
entries; `none` (divergence) when the walk runs out of fuel.  Without one
it is mode (3)/(4): optional init fragment and, if `@media` is present,
`⌈period_duration_secs / segment_duration⌉` fragments numbered from the
start number (nothing further, and no error, if `@media` is absent).  The
`f64` arithmetic is modelled exactly over `ℚ` (for a zero timescale or
duration the `f64` code would produce an infinity; no claim exercises
that). -/
def emitSegmentTemplate (st : SegmentTemplate) (base_url : Str)
    (dict : Params) (opt_init0 opt_media0 : Option Str)
    (opt_duration0 : Option ℚ) (timescale0 start_number0 : Nat)
    (period_duration_secs : ℚ) (fuel : Nat) (global : List MediaFragment) :
    Option (Except DashMpdError (List MediaFragment)) :=
  match st.SegmentTimeline with
  | some stl =>
    match effMedia st opt_media0 with
    | none =>
      some (.error (.UnhandledMediaStream
        "SegmentTimeline without a media attribute"))
    | some media =>
      match timelineWalk
          (period_duration_secs * (effTimescale st timescale0 : ℚ))
          (effStartNumber st start_number0) fuel stl.segments with
      | none => none
      | some pairs =>
        some (.ok (global
          ++ (match effInit st opt_init0 with
              | some init =>
                [⟨urlJoin base_url (resolve_url_template init dict),
                  none, none⟩]
              | none => [])
          ++ pairs.map fun p =>
              ⟨urlJoin base_url (resolve_url_template
                 (resolve_url_template media dict)
                 [(.Time, natToStr p.1), (.Number, natToStr p.2)]),
               none, none⟩))
  | none =>
    match effMedia st opt_media0 with
    | none =>
      some (.ok (global
        ++ (match effInit st opt_init0 with
            | some init =>
              [⟨urlJoin base_url (resolve_url_template init dict),
                none, none⟩]
            | none => [])))
    | some media =>
      if ((match st.duration with
           | some std => std / (effTimescale st timescale0 : ℚ)
           | none =>
             match opt_duration0 with
             | some d => d
             | none => -1) : ℚ) < 0 then
        some (.error (.UnhandledMediaStream
          "Audio representation is missing SegmentTemplate @duration attribute"))
      else
        some (.ok (global
          ++ (match effInit st opt_init0 with
              | some init =>
                [⟨urlJoin base_url (resolve_url_template init dict),
                  none, none⟩]
              | none => [])
          ++ (List.range (⌈period_duration_secs /
                ((match st.duration with
                  | some std => std / (effTimescale st timescale0 : ℚ)
                  | none =>
                    match opt_duration0 with
                    | some d => d
                    | none => -1) : ℚ)⌉.toNat)).map fun i =>
              ⟨urlJoin base_url (resolve_url_template
                 (resolve_url_template media dict)
                 [(.Number, natToStr (effStartNumber st start_number0 + i))]),
               none, none⟩))

/-- The six-mode addressing cascade for one selected audio Representation
(fetch.rs:788-1087), WITHOUT the final emptiness check.  Mode (1) at the
AdaptationSet level — read from the PRE-xlink adaptation `period_audio` and
falling back to ITS BaseURL list, fetch.rs:796-851 — runs unconditionally;
then the `else if` chain: mode (1) at the Representation level, or modes
(2)-(4) when either level carries a `SegmentTemplate` (Representation-level
taking precedence, fetch.rs:910-917), or mode (5) `SegmentBase`, or — only
when the SESSION-WIDE fragment list is still empty — mode (6) plain
BaseURL (fetch.rs:1074-1087).  `global` is the session-wide audio fragment
list accumulated so far (across earlier Periods). -/
def emitAudioRepresentationCore (period_audio audio : AdaptationSet)
    (audio_repr : Representation) (base_url : Str) (dict : Params)
    (opt_init0 opt_media0 : Option Str) (opt_duration0 : Option ℚ)
    (timescale0 start_number0 : Nat) (period_duration_secs : ℚ)
    (fuel : Nat) (global : List MediaFragment) :
    Option (Except DashMpdError (List MediaFragment)) :=
  match (match period_audio.SegmentList with
         | some sl =>
           emitSegmentList sl period_audio.BaseURL base_url dict global
         | none => .ok global) with
  | .error e => some (.error e)
  | .ok g1 =>
    match audio_repr.SegmentList with
    | some sl => some (emitSegmentList sl audio_repr.BaseURL base_url dict g1)
    | none =>
      match audio_repr.SegmentTemplate, audio.SegmentTemplate with
      | some st, _ =>
        emitSegmentTemplate st base_url dict opt_init0 opt_media0
          opt_duration0 timescale0 start_number0 period_duration_secs fuel g1
      | none, some st =>
        emitSegmentTemplate st base_url dict opt_init0 opt_media0
          opt_duration0 timescale0 start_number0 period_duration_secs fuel g1
      | none, none =>
        match audio_repr.SegmentBase with
        | some sb => some (emitSegmentBase sb base_url dict g1)
        | none =>
          match g1.isEmpty, audio_repr.BaseURL with
          | true, bu :: _ =>
            some (.ok (g1 ++ [⟨if is_absolute_url bu.base then bu.base
                               else urlJoin base_url bu.base, none, none⟩]))
          | _, _ => some (.ok g1)

/-- The cascade followed by the final emptiness check (fetch.rs:1088-1091):
if the session-wide audio fragment list is empty after the cascade, the
build fails with `UnhandledMediaStream`. -/
def emitAudioRepresentation (period_audio audio : AdaptationSet)
    (audio_repr : Representation) (base_url : Str) (dict : Params)
    (opt_init0 opt_media0 : Option Str) (opt_duration0 : Option ℚ)
    (timescale0 start_number0 : Nat) (period_duration_secs : ℚ)
    (fuel : Nat) (global : List MediaFragment) :
    Option (Except DashMpdError (List MediaFragment)) :=
  match emitAudioRepresentationCore period_audio audio audio_repr base_url
      dict opt_init0 opt_media0 opt_duration0 timescale0 start_number0
      period_duration_secs fuel global with
  | none => none
  | some (.error e) => some (.error e)
  | some (.ok g) =>
    if g.isEmpty then
      some (.error (.UnhandledMediaStream
        "no usable addressing mode identified for audio representation"))
    else some (.ok g)

/-- Rust `Iterator::min_by_key` (ties keep the FIRST minimizer), as used to
pick the lowest-bandwidth Representation (fetch.rs:727-729). -/
def minByKeyFirst (f : Representation → Nat) :
    List Representation → Option Representation
  | [] => none
  | x :: xs =>
    match minByKeyFirst f xs with
    | none => some x
    | some y => if f x ≤ f y then some x else some y

/-- Rust `Iterator::max_by_key` (ties keep the LAST maximizer), as used to
pick the highest-bandwidth Representation (fetch.rs:730-732). -/
def maxByKeyLast (f : Representation → Nat) :
    List Representation → Option Representation
  | [] => none
  | x :: xs =>
    match maxByKeyLast f xs with
    | none => some x
    | some y => if f y < f x then some x else some y

/-- Representation selection by quality preference (fetch.rs:727-733):
missing bandwidth counts as `1_000_000_000` for Lowest and `0` for
Highest. -/
def selectRepresentation (quality_lowest : Bool)
    (reps : List Representation) : Option Representation :=
  if quality_lowest then
    minByKeyFirst
      (fun x => match x.bandwidth with
                | some b => b
                | none => 1000000000) reps
  else
    maxByKeyLast
      (fun x => match x.bandwidth with
                | some b => b
                | none => 0) reps

/-- Rust `min_by_key` with the panicking key `adaptation_lang_distance`
(fetch.rs:644-645): the key of EVERY element is evaluated, a panic anywhere
(outer `none`) aborts, ties keep the first minimizer. -/
def minByLangDistance (pref : ByteStr) :
    List AdaptationSet → Option (Option AdaptationSet)
  | [] => some none
  | a :: rest =>
    match adaptation_lang_distance a.lang pref with
    | none => none
    | some d =>
      match minByLangDistance pref rest with
      | none => none
      | some none => some (some a)
      | some (some b) =>
        match adaptation_lang_distance b.lang pref with
        | none => none
        | some db => some (some (if d ≤ db then a else b))

/-- Audio AdaptationSet selection (fetch.rs:643-649): with a language
preference, the audio AdaptationSet minimizing the language distance;
without one, the first audio AdaptationSet in document order.  The outer
`none` models a panic inside `adaptation_lang_distance`. -/
def selectAudioAdaptation (pref : Option ByteStr)
    (adaptations : List AdaptationSet) : Option (Option AdaptationSet) :=
  match pref with
  | some lang => minByLangDistance lang (adaptations.filter is_audio_adaptation)
  | none => some (adaptations.find? fun a => is_audio_adaptation a)

/-- The external world of XLink resolution, one resolver per element kind:
given a fetchable `xlink:href`, the oracle stands for "resolve the href
against the redirected manifest URL, GET it, and parse the body as an
element of the host's kind" (fetch.rs:593-614, 659-680, 702-721).  An
`error` result models any failure of that pipeline. -/
structure XlinkOracle where
  period : Str → Except DashMpdError Period
  adaptation : Str → Except DashMpdError AdaptationSet
  representation : Str → Except DashMpdError Representation

/-- XLink resolution over the candidate Representations
(fetch.rs:698-726): a Representation with a fetchable href is REPLACED by
the fetched one; one with an UNFETCHABLE href (resolve-to-zero or empty) is
pushed nowhere, i.e. removed; one without an href is kept. -/
def resolveRepresentations (oracle : XlinkOracle) :
    List Representation → Except DashMpdError (List Representation)
  | [] => .ok []
  | r :: rest =>
    match r.href with
    | some href =>
      if fetchable_xlink_href href then
        match oracle.representation href with
        | .error e => .error e
        | .ok linked =>
          match resolveRepresentations oracle rest with
          | .error e => .error e
          | .ok l => .ok (linked :: l)
      else resolveRepresentations oracle rest
    | none =>
      match resolveRepresentations oracle rest with
      | .error e => .error e
      | .ok l => .ok (r :: l)

/-- The configuration fields of `DashDownloader` that the audio side of the
Period loop reads (`quality_lowest` is
`quality_preference == QualityPreference::Lowest`). -/
structure DownloaderConfig where
  fetch_audio : Bool
  language_preference : Option ByteStr
  quality_lowest : Bool

/-- The audio side of one iteration of the Period loop of `fetch_mpd`
(fetch.rs:587-1094): XLink on the Period (no GET for an unfetchable href —
the in-MPD Period is then processed as-is, fetch.rs:591-616), the period
duration (Period `@duration` overriding `mediaPresentationDuration`,
default 0, fetch.rs:619-625), the Period-level BaseURL (fetch.rs:629-640),
audio AdaptationSet selection, XLink on the AdaptationSet, the branch-local
AdaptationSet BaseURL (fetch.rs:685-695), XLink over the candidate
Representations, quality selection (no error on the audio side when no
Representation exists, fetch.rs:734), the Representation BaseURL
(fetch.rs:741-751), the AdaptationSet-level SegmentTemplate defaults
(fetch.rs:752-777), the mandatory `@id` (fetch.rs:778-783), the template
variable map (fetch.rs:784-787), and the addressing cascade.  Result
`none` models a non-returning execution (walk divergence or a
lang-distance panic). -/
def processPeriodAudio (oracle : XlinkOracle) (cfg : DownloaderConfig)
    (mpd_duration : Option ℚ) (toplevel_base_url : Str) (fuel : Nat)
    (global : List MediaFragment) (mpd_period : Period) :
    Option (Except DashMpdError (List MediaFragment)) :=
  match (match mpd_period.href with
         | some href =>
           if fetchable_xlink_href href then oracle.period href
           else .ok mpd_period
         | none => .ok mpd_period) with
  | .error e => some (.error e)
  | .ok period =>
    match selectAudioAdaptation cfg.language_preference period.adaptations with
    | none => none
    | some maybe_audio =>
      match cfg.fetch_audio, maybe_audio with
      | true, some period_audio =>
        match (match period_audio.href with
               | some href =>
                 if fetchable_xlink_href href then oracle.adaptation href
                 else .ok period_audio
               | none => .ok period_audio) with
        | .error e => some (.error e)
        | .ok audio =>
          match resolveRepresentations oracle audio.representations with
          | .error e => some (.error e)
          | .ok representations =>
            match selectRepresentation cfg.quality_lowest representations with
            | none => some (.ok global)
            | some audio_repr =>
              match audio_repr.id with
              | none =>
                some (.error (.UnhandledMediaStream
                  "Missing @id on Representation node"))
              | some rid =>
                emitAudioRepresentation period_audio audio audio_repr
                  (match audio_repr.BaseURL with
                   | [] =>
                     match audio.BaseURL with
                     | [] =>
                       match period.BaseURL with
                       | [] => toplevel_base_url
                       | bu :: _ =>
                         if is_absolute_url bu.base then bu.base
                         else urlJoin toplevel_base_url bu.base
                     | bu :: _ =>
                       if is_absolute_url bu.base then bu.base
                       else urlJoin
                         (match period.BaseURL with
                          | [] => toplevel_base_url
                          | pu :: _ =>
                            if is_absolute_url pu.base then pu.base
                            else urlJoin toplevel_base_url pu.base) bu.base
                   | bu :: _ =>
                     if is_absolute_url bu.base then bu.base
                     else urlJoin
                       (match audio.BaseURL with
                        | [] =>
                          match period.BaseURL with
                          | [] => toplevel_base_url
                          | pu :: _ =>
                            if is_absolute_url pu.base then pu.base
                            else urlJoin toplevel_base_url pu.base
                        | au :: _ =>
                          if is_absolute_url au.base then au.base
                          else urlJoin
                            (match period.BaseURL with
                             | [] => toplevel_base_url
                             | pu :: _ =>
                               if is_absolute_url pu.base then pu.base
                               else urlJoin toplevel_base_url pu.base) au.base)
                       bu.base)
                  ((.RepresentationID, rid) ::
                    (match audio_repr.bandwidth with
                     | some b => [(.Bandwidth, natToStr b)]
                     | none => []))
                  (match audio.SegmentTemplate with
                   | some st => st.initialization
                   | none => none)
                  (match audio.SegmentTemplate with
                   | some st => st.media
                   | none => none)
                  (match audio.SegmentTemplate with
                   | some st => st.duration
                   | none => none)
                  (match audio.SegmentTemplate with
                   | some st => effTimescale st 1
                   | none => 1)
                  (match audio.SegmentTemplate with
                   | some st => effStartNumber st 1
                   | none => 1)
                  (match period.duration with
                   | some d => d
                   | none =>
                     match mpd_duration with
                     | some d => d
                     | none => 0)
                  fuel global
      | _, _ => some (.ok global)

/-- The Period loop of `fetch_mpd`, audio side (fetch.rs:587): Periods in
document order, each appending to the SESSION-WIDE `audio_fragments`
list. -/
def processPeriodsAudio (oracle : XlinkOracle) (cfg : DownloaderConfig)
    (mpd_duration : Option ℚ) (toplevel_base_url : Str) (fuel : Nat)
    (global : List MediaFragment) :
    List Period → Option (Except DashMpdError (List MediaFragment))
  | [] => some (.ok global)
  | p :: rest =>
    match processPeriodAudio oracle cfg mpd_duration toplevel_base_url fuel
        global p with
    | none => none
    | some (.error e) => some (.error e)
    | some (.ok g2) =>
      processPeriodsAudio oracle cfg mpd_duration toplevel_base_url fuel
        g2 rest

/-- The all-failing XLink oracle: any attempted GET fails with a `Network`
error, so a successful run certifies that no XLink fetch was issued. -/
def failOracle : XlinkOracle :=
  ⟨fun _ => .error (.Network "xlink"),
   fun _ => .error (.Network "xlink"),
   fun _ => .error (.Network "xlink")⟩

/-- Configuration: fetch audio, no language preference, lowest quality
(the `DashDownloader` defaults, fetch.rs:131-149). -/
def defaultConfig : DownloaderConfig := ⟨true, none, true⟩

/-- A Representation with only a `BaseURL` (addressing mode (6)). -/
def repBaseOnly : Representation :=
  ⟨some "r1".data, none, none, [⟨"http://h/a.mp4".data⟩], none, none, none⟩

/-- An audio AdaptationSet holding `repBaseOnly`. -/
def adaptBaseOnly : AdaptationSet :=
  ⟨none, some "audio".data, none, none, [], none, none, [repBaseOnly]⟩

/-- A Period whose selected audio Representation emits one fragment. -/
def periodBaseOnly : Period := ⟨none, none, [], [adaptBaseOnly]⟩

/-- A `SegmentTemplate` with no attributes at all. -/
def emptyTemplate : SegmentTemplate := ⟨none, none, none, none, none, none⟩

/-- A Representation carrying an empty `SegmentTemplate`: the cascade takes
the mode (3)/(4) branch, finds neither `initialization` nor `media`, and
emits nothing without raising an error (fetch.rs:1002-1033). -/
def repEmptyTemplate : Representation :=
  ⟨some "r2".data, none, none, [], none, none, some emptyTemplate⟩

/-- An audio AdaptationSet holding `repEmptyTemplate`. -/
def adaptEmptyTemplate : AdaptationSet :=
  ⟨none, some "audio".data, none, none, [], none, none, [repEmptyTemplate]⟩

/-- A Period whose selected audio Representation emits zero fragments. -/
def periodEmptyTemplate : Period := ⟨none, none, [], [adaptEmptyTemplate]⟩

/-- **C4, counterexample.** The claim asserts the zero-fragment failure
fires for EVERY Period with a selected Representation, including a later
Period of a multi-Period manifest.  The emptiness check at
fetch.rs:1088-1091 inspects the SESSION-WIDE `audio_fragments` list, so in
this two-Period manifest — whose second Period's audio Representation `r2`
is selected (second and third conjuncts) and emits zero fragments — the
build nonetheless succeeds, with only the first Period's fragment. -/
theorem c4_counterexample :
    processPeriodsAudio failOracle defaultConfig none "http://base/".data 1
        [] [periodBaseOnly, periodEmptyTemplate]
      = some (.ok [⟨"http://h/a.mp4".data, none, none⟩])
    ∧ selectAudioAdaptation none periodEmptyTemplate.adaptations
        = some (some adaptEmptyTemplate)
    ∧ selectRepresentation true [repEmptyTemplate] = some repEmptyTemplate :=
  ⟨rfl, rfl, rfl⟩

/-- **C4, amended.** The `UnhandledMediaStream` failure is governed by the
SESSION-WIDE fragment list: whenever the cascade for a selected audio
Representation returns successfully, the cumulative list is non-empty.  In
particular the original claim holds for the FIRST selected Representation
(the cumulative list being empty beforehand, zero emitted fragments force
the failure), but a later Period whose cascade emits zero fragments
passes silently when earlier Periods contributed fragments
(`c4_counterexample`).  The video side (fetch.rs:1503-1506) is
symmetric. -/
theorem c4_success_nonempty (period_audio audio : AdaptationSet)
    (audio_repr : Representation) (base_url : Str) (dict : Params)
    (oi om : Option Str) (od : Option ℚ) (ts sn : Nat) (pd : ℚ)
    (fuel : Nat) (global g : List MediaFragment)
    (h : emitAudioRepresentation period_audio audio audio_repr base_url dict
      oi om od ts sn pd fuel global = some (.ok g)) :
    g ≠ [] := by
  unfold emitAudioRepresentation at h
  cases hc : emitAudioRepresentationCore period_audio audio audio_repr
      base_url dict oi om od ts sn pd fuel global with
  | none => rw [hc] at h; simp at h
  | some exc =>
    rw [hc] at h
    cases exc with
    | error e => simp at h
    | ok g2 =>
      have h2 : (if g2.isEmpty then
          (some (.error (.UnhandledMediaStream
            "no usable addressing mode identified for audio representation")) :
            Option (Except DashMpdError (List MediaFragment)))
        else some (.ok g2)) = some (.ok g) := h
      by_cases hg : g2.isEmpty
      · rw [if_pos hg] at h2
        simp at h2
      · rw [if_neg hg] at h2
        simp only [Option.some.injEq, Except.ok.injEq] at h2
        subst h2
        simpa using hg

/-- Witness for `c4_success_nonempty` at a concrete input: the mode (6)
cascade for `repBaseOnly` over an empty session-wide list succeeds with a
non-empty list. -/
theorem c4_witness :
    ([⟨"http://h/a.mp4".data, none, none⟩] : List MediaFragment) ≠ [] :=
  c4_success_nonempty adaptBaseOnly adaptBaseOnly repBaseOnly
    "http://base/".data [(.RepresentationID, "r1".data)] none none none 1 1
    0 1 [] [⟨"http://h/a.mp4".data, none, none⟩] rfl

/-- A Period carrying `xlink:href="urn:mpeg:dash:resolve-to-zero:2013"`
TOGETHER with inline content (an audio AdaptationSet in mode (6)). -/
def periodResolveToZero : Period :=
  ⟨some "urn:mpeg:dash:resolve-to-zero:2013".data, none, [],
   [adaptBaseOnly]⟩

/-- **C5.** Evaluation at the failing input: a Period whose `xlink:href` is
`urn:mpeg:dash:resolve-to-zero:2013` and which has inline child content.
The href is classified unfetchable (first conjunct), and the run succeeds
against the all-failing oracle — so no HTTP GET was issued — but the
Period's INLINE content is processed and contributes one fragment (second
conjunct), where the claim (and the DASH text quoted at fetch.rs:371-373,
"the in-MPD element shall be removed from the MPD") requires zero
fragments.  An empty-string href takes the same code path.  (At the
Representation level the source does remove the node, fetch.rs:700-725;
the divergence is at the Period and AdaptationSet levels.) -/
theorem c5_resolve_to_zero_keeps_inline_content :
    fetchable_xlink_href "urn:mpeg:dash:resolve-to-zero:2013".data = false
    ∧ processPeriodsAudio failOracle defaultConfig none "http://base/".data
        1 [] [periodResolveToZero]
      = some (.ok [⟨"http://h/a.mp4".data, none, none⟩]) :=
  ⟨rfl, rfl⟩

end DashMpdRs
